import Mathlib

/- Verification development for the command dispatcher in src/main.py of the
osintmy repository.  The shell validates the target identifier supplied at
launch, builds a registry mapping command names to zero-argument actions over
a collaborator object, optionally runs one command non-interactively, and
otherwise loops reading lines, dispatching them against the registry or the
four toggle directives, catching Exception at the loop boundary.  The external
collaborator (the Osintgram class) is out of scope of the source excerpt; its
methods are modelled by an oracle that either returns normally or raises an
ordinary Exception with a message. -/

namespace Osintmy

/-- Whitespace characters removed by the Python str.strip method (the ASCII
range; the inputs this layer handles are ASCII command words). -/
def pyIsSpace (c : Char) : Bool :=
  c == ' ' || c == '\t' || c == '\n' || c == '\r' || c == '\x0b' || c == '\x0c'

/-- Python str.strip with no argument: remove leading and trailing whitespace,
as applied to every input line at src/main.py line 149. -/
def pyStrip (s : String) : String :=
  String.mk (((s.data.dropWhile pyIsSpace).reverse.dropWhile pyIsSpace).reverse)

/-- Python str.isalnum: the string is nonempty and every character is
alphanumeric (ASCII letters and digits; the identifiers considered by the
claims are ASCII). Used by the validation at src/main.py line 98. -/
def pyIsAlnum (s : String) : Bool :=
  !s.isEmpty && s.data.all Char.isAlphanum

/-- Actions stored in the command registry built in main (src/main.py lines
106 to 134): print_commands for list and help, sys.exit for quit and exit,
a collaborator method call, or a collaborator call whose result is fed to
print_full_data under a title. -/
inductive Action where
  | print_commands : Action
  | sys_exit : Action
  | api_method : String → Action
  | full_data : String → String → Action
  deriving DecidableEq, Repr

/-- The command registry dict of main, in source order (src/main.py lines
106 to 134). -/
def commandsList : List (String × Action) := [
  ("list", Action.print_commands),
  ("help", Action.print_commands),
  ("quit", Action.sys_exit),
  ("exit", Action.sys_exit),
  ("addrs", Action.api_method "get_addrs"),
  ("cache", Action.api_method "clear_cache"),
  ("captions", Action.api_method "get_captions"),
  ("commentdata", Action.api_method "get_comment_data"),
  ("comments", Action.api_method "get_total_comments"),
  ("followers", Action.api_method "get_followers"),
  ("followings", Action.api_method "get_followings"),
  ("fwersemail", Action.full_data "get_fwersemail" "Follower Emails"),
  ("fwingsemail", Action.full_data "get_fwingsemail" "Following Emails"),
  ("fwersnumber", Action.full_data "get_fwersnumber" "Follower Phone Numbers"),
  ("fwingsnumber", Action.full_data "get_fwingsnumber" "Following Phone Numbers"),
  ("hashtags", Action.api_method "get_hashtags"),
  ("info", Action.api_method "get_user_info"),
  ("likes", Action.api_method "get_total_likes"),
  ("mediatype", Action.api_method "get_media_type"),
  ("photodes", Action.api_method "get_photo_description"),
  ("photos", Action.api_method "get_user_photo"),
  ("propic", Action.api_method "get_user_propic"),
  ("stories", Action.api_method "get_user_stories"),
  ("tagged", Action.api_method "get_people_tagged_by_user"),
  ("target", Action.api_method "change_target"),
  ("wcommented", Action.api_method "get_people_who_commented"),
  ("wtagged", Action.api_method "get_people_who_tagged")]

/-- Dict lookup: the tests cmd in commands and commands.get(cmd) of the
source; the keys of the dict are unique, so association-list lookup agrees
with the Python dict. -/
def commandsLookup (cmd : String) : Option Action :=
  commandsList.lookup cmd

/-- Python exceptions as seen by the dispatcher: ordinary Exception instances
carrying a message, and SystemExit as raised by sys.exit, which is not a
subclass of Exception. -/
inductive PyExc where
  | exception : String → PyExc
  | systemExit : Nat → PyExc
  deriving DecidableEq, Repr

/-- Whether the except-Exception clause at src/main.py line 164 catches a
raised exception: it catches Exception instances only, and SystemExit does
not derive from Exception. -/
def catchesAtLoop : PyExc → Bool
  | PyExc.exception _ => true
  | PyExc.systemExit _ => false

/-- Exit status the interpreter gives when the exception terminates the
process: SystemExit carries its code (sys.exit with no arguments means 0). -/
def exitCodeOf : PyExc → Nat
  | PyExc.exception _ => 1
  | PyExc.systemExit c => c

/-- The message printed by the loop for a caught exception, from the
f-string at src/main.py line 165. -/
def formatError : PyExc → String
  | PyExc.exception m => "Error: " ++ m ++ "\n"
  | PyExc.systemExit c => "Error: " ++ toString c ++ "\n"

/-- Oracle for the external collaborator: for a method name it yields none
when the call returns normally and some msg when the call raises an Exception
with message msg.  The collaborator performs network and file work outside
this excerpt and never calls sys.exit itself. -/
def ApiOracle : Type := String → Option String

/-- Run one registry action: print_commands only prints and returns;
sys.exit called with no arguments raises SystemExit with code 0; a
collaborator method behaves as the oracle says; the four full-data commands
call the collaborator method first, so an oracle failure raises before any
formatting happens. -/
def execAction (apiExec : ApiOracle) : Action → Option PyExc
  | Action.print_commands => none
  | Action.sys_exit => some (PyExc.systemExit 0)
  | Action.api_method m => (apiExec m).map PyExc.exception
  | Action.full_data m _ => (apiExec m).map PyExc.exception

/-- Session configuration flags owned by the collaborator and mutated through
set_write_file and set_json_dump (src/main.py lines 154 to 161). -/
structure ApiState where
  write_file : Bool
  json_dump : Bool
  deriving DecidableEq, Repr

/-- What one raw input line resolves to in the interactive loop: the if/elif
chain of the loop body at src/main.py lines 149 to 163, applied after
stripping. -/
inductive Effect where
  | nothing : Effect
  | invoke : String → Action → Effect
  | setWriteFile : Bool → Effect
  | setJsonDump : Bool → Effect
  | printUnknown : Effect
  deriving DecidableEq, Repr

/-- Resolution of one raw line: strip it, skip it when empty, look it up in
the registry, otherwise try the four toggle directives, otherwise report an
unknown command.  The registry test comes before the directive tests, exactly
as in the source. -/
def dispatchLine (raw : String) : Effect :=
  if pyStrip raw = "" then Effect.nothing
  else
    match commandsLookup (pyStrip raw) with
    | some a => Effect.invoke (pyStrip raw) a
    | none =>
      if pyStrip raw = "FILE=y" then Effect.setWriteFile true
      else if pyStrip raw = "FILE=n" then Effect.setWriteFile false
      else if pyStrip raw = "JSON=y" then Effect.setJsonDump true
      else if pyStrip raw = "JSON=n" then Effect.setJsonDump false
      else Effect.printUnknown

/-- Registry actions invoked while handling one input line. -/
def invokedActions (raw : String) : List Action :=
  match dispatchLine raw with
  | Effect.invoke _ a => [a]
  | _ => []

/-- Result of one pass through the body of the while-True loop: either the
loop continues to the next prompt, or the process terminates with an exit
status; in both cases together with the lines the loop itself printed. -/
inductive LoopOutcome where
  | next : List String → LoopOutcome
  | terminate : Nat → List String → LoopOutcome
  deriving DecidableEq, Repr

/-- Events the blocking input call can produce: a typed line, or SIGINT.
The handler installed at src/main.py line 85 prints a farewell and calls
sys.exit(0); the resulting SystemExit is raised inside the try block but is
not caught by the except-Exception clause, so the process terminates. -/
inductive InputEvent where
  | line : String → InputEvent
  | interrupt : InputEvent
  deriving DecidableEq, Repr

/-- Farewell printed by signal_handler (src/main.py line 69). -/
def signal_handler_message : String := "\nGoodbye!\n"

/-- Interpret the resolved effect of one line under the try/except of the
loop: an exception raised by the invoked action is caught and reported when
the except-Exception clause applies, and terminates the process otherwise;
toggle directives mutate the collaborator flags; an unrecognized line prints
the unknown-command message. -/
def runEffect (apiExec : ApiOracle) (e : Effect) (st : ApiState) :
    LoopOutcome × ApiState :=
  match e with
  | Effect.nothing => (LoopOutcome.next [], st)
  | Effect.invoke _ a =>
    match execAction apiExec a with
    | none => (LoopOutcome.next [], st)
    | some exc =>
      if catchesAtLoop exc then (LoopOutcome.next [formatError exc], st)
      else (LoopOutcome.terminate (exitCodeOf exc) [], st)
  | Effect.setWriteFile b => (LoopOutcome.next [], { st with write_file := b })
  | Effect.setJsonDump b => (LoopOutcome.next [], { st with json_dump := b })
  | Effect.printUnknown => (LoopOutcome.next ["Unknown command\n"], st)

/-- One pass of the interactive loop (src/main.py lines 146 to 165). -/
def loopIter (apiExec : ApiOracle) (ev : InputEvent) (st : ApiState) :
    LoopOutcome × ApiState :=
  match ev with
  | InputEvent.interrupt => (LoopOutcome.terminate 0 [signal_handler_message], st)
  | InputEvent.line raw => runEffect apiExec (dispatchLine raw) st

/-- Collaborator flag state after the loop handles one input line. -/
def applyLine (apiExec : ApiOracle) (raw : String) (st : ApiState) : ApiState :=
  (loopIter apiExec (InputEvent.line raw) st).2

/-- Result of running the interactive loop over a finite sequence of input
events: either some event terminated the process, or every event was consumed
and the loop is waiting at the prompt with the resulting flag state. -/
inductive LoopResult where
  | exited : Nat → LoopResult
  | atPrompt : ApiState → LoopResult
  deriving DecidableEq, Repr

/-- The while-True loop over a finite sequence of input events. -/
def runLoop (apiExec : ApiOracle) : List InputEvent → ApiState → LoopResult
  | [], st => LoopResult.atPrompt st
  | ev :: rest, st =>
    match loopIter apiExec ev st with
    | (LoopOutcome.terminate c _, _) => LoopResult.exited c
    | (LoopOutcome.next _, st2) => runLoop apiExec rest st2

/-- Outcome of non-interactive single-command mode (src/main.py lines 136 to
142): the name is resolved once against the registry; no try/except wraps the
call, so a raised exception propagates out of main uncaught; an unresolved
name prints an unknown-command message and main returns. -/
inductive SingleResult where
  | done : SingleResult
  | unknownCmd : SingleResult
  | uncaught : PyExc → SingleResult
  deriving DecidableEq, Repr

/-- Single-command dispatch of src/main.py lines 136 to 142. -/
def runSingle (name : String) (apiExec : ApiOracle) : SingleResult :=
  match commandsLookup name with
  | some a =>
    match execAction apiExec a with
    | none => SingleResult.done
    | some e => SingleResult.uncaught e
  | none => SingleResult.unknownCmd

/-- Registry actions executed in single-command mode. -/
def singleInvoked (name : String) : List Action :=
  match commandsLookup name with
  | some a => [a]
  | none => []

/-- Exit status of the process in single-command mode as determined by this
code: main returns normally both after a resolved command and after the
unknown-command message, so the interpreter exits with status 0 in either
case; when an exception escapes main, the status is decided by the
interpreter outside this code, hence none. -/
def singleExitCode (name : String) (apiExec : ApiOracle) : Option Nat :=
  match runSingle name apiExec with
  | SingleResult.done => some 0
  | SingleResult.unknownCmd => some 0
  | SingleResult.uncaught _ => none

/-- Error text printed when the identifier fails validation (src/main.py
line 99). -/
def invalidIdMessage : String :=
  "Invalid Instagram username. It should be alphanumeric.\n"

/-- Overall shape of one run of main: exit with status 1 at validation, run
one command non-interactively, or enter the interactive loop.  The invalidId
outcome happens at src/main.py lines 98 to 100, before the collaborator is
constructed at line 103 and before any command dispatch. -/
inductive MainResult where
  | invalidId : String → Nat → MainResult
  | singleMode : String → SingleResult → MainResult
  | interactiveMode : MainResult
  deriving DecidableEq, Repr

/-- Whether the run constructs the collaborator object: construction at
src/main.py line 103 is reached exactly when validation passes. -/
def apiConstructed : MainResult → Bool
  | MainResult.invalidId _ _ => false
  | _ => true

/-- Control flow of main after argument parsing: validate the identifier,
construct the collaborator, then branch on the command option.  The Python
truthiness test at line 136 treats a missing option and an empty string the
same way, so only a nonempty command string selects single-command mode. -/
def mainFlow (id : String) (command : Option String) (apiExec : ApiOracle) :
    MainResult :=
  if !pyIsAlnum id then MainResult.invalidId invalidIdMessage 1
  else
    match command with
    | some c =>
      if c = "" then MainResult.interactiveMode
      else MainResult.singleMode c (runSingle c apiExec)
    | none => MainResult.interactiveMode

/-- Lines printed by print_full_data (src/main.py lines 168 to 175): a
titled header, then either the no-data notice or one bullet line per item. -/
def print_full_data (data : List String) (title : String) : List String :=
  ("\n[+] " ++ title ++ ":\n") ::
    (if data.isEmpty then ["[-] No data found.\n"]
     else data.map (fun item => "  - " ++ item ++ "\n"))

/-- Association-list lookup only returns pairs stored in the list. -/
theorem lookup_mem {l : List (String × Action)} {k : String} {v : Action}
    (h : l.lookup k = some v) : (k, v) ∈ l := by
  induction l with
  | nil => simp [List.lookup] at h
  | cons p rest ih =>
    obtain ⟨a, b⟩ := p
    by_cases hk : k = a
    · subst hk
      simp [List.lookup] at h
      subst h
      exact List.mem_cons_self _ _
    · have hba : (k == a) = false := beq_eq_false_iff_ne.mpr hk
      simp only [List.lookup, hba] at h
      exact List.mem_cons_of_mem _ (ih h)

/-- The only registry entries whose action is sys.exit are quit and exit. -/
theorem sys_exit_keys {s : String}
    (h : commandsLookup s = some Action.sys_exit) :
    s = "quit" ∨ s = "exit" := by
  have h2 : commandsList.lookup s = some Action.sys_exit := h
  have hmem : (s, Action.sys_exit) ∈ commandsList := lookup_mem h2
  simp [commandsList] at hmem
  tauto

/-- A stripped text found in the registry is nonempty. -/
theorem lookup_nonempty {cmd : String} {a : Action}
    (h : commandsLookup cmd = some a) : cmd ≠ "" := by
  intro hc
  subst hc
  have hnone : commandsLookup "" = none := by decide
  rw [hnone] at h
  exact Option.noConfusion h

/-- A registry hit on the stripped text resolves the line to an invoke
effect carrying exactly that action. -/
theorem dispatch_of_lookup {raw : String} {a : Action}
    (h : commandsLookup (pyStrip raw) = some a) :
    dispatchLine raw = Effect.invoke (pyStrip raw) a := by
  unfold dispatchLine
  simp [lookup_nonempty h, h]

/-- An invoke effect only arises from a registry hit on the stripped text. -/
theorem dispatch_invoke {raw name : String} {a : Action}
    (h : dispatchLine raw = Effect.invoke name a) :
    commandsLookup (pyStrip raw) = some a ∧ name = pyStrip raw := by
  unfold dispatchLine at h
  by_cases hcmd : pyStrip raw = ""
  · rw [if_pos hcmd] at h
    exact absurd h (by simp)
  · rw [if_neg hcmd] at h
    cases hl : commandsLookup (pyStrip raw) with
    | none =>
      simp only [hl] at h
      split_ifs at h
    | some a2 =>
      simp only [hl, Effect.invoke.injEq] at h
      exact ⟨by rw [h.2], h.1.symm⟩

/-- C1: every input line is stripped before any test; a line that strips to
the empty string resolves to no action at all and the loop just reprompts; a
line whose stripped text is a registered command name resolves to exactly
that command action, invoked once; no line ever invokes more than one
action. -/
theorem c1_trim_then_dispatch (raw : String) :
    (pyStrip raw = "" →
      dispatchLine raw = Effect.nothing ∧ invokedActions raw = []) ∧
    (∀ a, commandsLookup (pyStrip raw) = some a →
      dispatchLine raw = Effect.invoke (pyStrip raw) a ∧
        invokedActions raw = [a]) ∧
    (invokedActions raw).length ≤ 1 := by
  refine ⟨?_, ?_, ?_⟩
  · intro hcmd
    have hd : dispatchLine raw = Effect.nothing := by
      unfold dispatchLine
      simp [hcmd]
    exact ⟨hd, by unfold invokedActions; rw [hd]⟩
  · intro a ha
    have hd := dispatch_of_lookup ha
    exact ⟨hd, by unfold invokedActions; rw [hd]⟩
  · unfold invokedActions
    cases dispatchLine raw <;> simp

/-- C1 witness: the line with the list command surrounded by blanks is
stripped and resolves to the print_commands action, invoked once. -/
theorem c1_witness :
    dispatchLine "  list  " = Effect.invoke "list" Action.print_commands ∧
    invokedActions "  list  " = [Action.print_commands] := by
  have hp : pyStrip "  list  " = "list" := by decide
  have h := (c1_trim_then_dispatch "  list  ").2.1 Action.print_commands
    (by decide)
  rw [hp] at h
  exact h

/-- C2: an Exception raised by a command resolved from the registry is
caught at the loop level, reported by a message built from its message text,
and the loop goes on: running the rest of the input after the failing line
is the same as running the rest alone, so one failing command never ends the
session. -/
theorem c2_exception_caught (apiExec : ApiOracle) (raw : String) (a : Action)
    (m : String) (st : ApiState) (rest : List InputEvent)
    (hlook : commandsLookup (pyStrip raw) = some a)
    (hexec : execAction apiExec a = some (PyExc.exception m)) :
    loopIter apiExec (InputEvent.line raw) st =
      (LoopOutcome.next ["Error: " ++ m ++ "\n"], st) ∧
    runLoop apiExec (InputEvent.line raw :: rest) st =
      runLoop apiExec rest st := by
  have hd := dispatch_of_lookup hlook
  have hiter : loopIter apiExec (InputEvent.line raw) st =
      (LoopOutcome.next ["Error: " ++ m ++ "\n"], st) := by
    simp [loopIter, hd, runEffect, hexec, catchesAtLoop, formatError]
  exact ⟨hiter, by simp [runLoop, hiter]⟩

/-- C2 witness: the addrs command with a collaborator that raises an
Exception with message boom is reported and the loop continues. -/
theorem c2_witness :
    loopIter (fun _ => some "boom") (InputEvent.line "addrs") ⟨false, false⟩ =
      (LoopOutcome.next ["Error: " ++ "boom" ++ "\n"],
        (⟨false, false⟩ : ApiState)) ∧
    runLoop (fun _ => some "boom") [InputEvent.line "addrs"] ⟨false, false⟩ =
      runLoop (fun _ => some "boom") [] ⟨false, false⟩ :=
  c2_exception_caught (fun _ => some "boom") "addrs"
    (Action.api_method "get_addrs") "boom" ⟨false, false⟩ [] (by decide) rfl

/-- C3: a trimmed nonempty line that is neither a registry key nor one of
the four toggle directives resolves to the unknown-command report: no action
is invoked, the loop prints the unknown-command message without raising, the
flag state is unchanged, and control returns to the prompt. -/
theorem c3_unknown_command (apiExec : ApiOracle) (raw : String)
    (st : ApiState) (rest : List InputEvent)
    (h1 : pyStrip raw ≠ "")
    (h2 : commandsLookup (pyStrip raw) = none)
    (h3 : pyStrip raw ≠ "FILE=y") (h4 : pyStrip raw ≠ "FILE=n")
    (h5 : pyStrip raw ≠ "JSON=y") (h6 : pyStrip raw ≠ "JSON=n") :
    dispatchLine raw = Effect.printUnknown ∧
    invokedActions raw = [] ∧
    loopIter apiExec (InputEvent.line raw) st =
      (LoopOutcome.next ["Unknown command\n"], st) ∧
    runLoop apiExec (InputEvent.line raw :: rest) st =
      runLoop apiExec rest st := by
  have hd : dispatchLine raw = Effect.printUnknown := by
    unfold dispatchLine
    simp [h1, h2, h3, h4, h5, h6]
  have hiter : loopIter apiExec (InputEvent.line raw) st =
      (LoopOutcome.next ["Unknown command\n"], st) := by
    simp [loopIter, hd, runEffect]
  exact ⟨hd, by unfold invokedActions; rw [hd], hiter, by simp [runLoop, hiter]⟩

/-- C3 witness: the unregistered word frobnicate is reported as unknown,
invokes nothing and leaves the loop running. -/
theorem c3_witness :
    dispatchLine " frobnicate " = Effect.printUnknown ∧
    invokedActions " frobnicate " = [] ∧
    loopIter (fun _ => none) (InputEvent.line " frobnicate ") ⟨false, false⟩ =
      (LoopOutcome.next ["Unknown command\n"], (⟨false, false⟩ : ApiState)) := by
  have h := c3_unknown_command (fun _ => none) " frobnicate " ⟨false, false⟩ []
    (by decide) (by decide) (by decide) (by decide) (by decide) (by decide)
  exact ⟨h.1, h.2.1, h.2.2.1⟩

/-- C4: the four toggle directives are not registry commands; each sets the
corresponding collaborator flag to the stated value; FILE=y followed by
FILE=n leaves the write-to-file flag false; and entering any one directive
twice gives the same flag state as entering it once. -/
theorem c4_toggle_directives (apiExec : ApiOracle) (st : ApiState) :
    (commandsLookup "FILE=y" = none ∧ commandsLookup "FILE=n" = none ∧
      commandsLookup "JSON=y" = none ∧ commandsLookup "JSON=n" = none) ∧
    (applyLine apiExec "FILE=y" st).write_file = true ∧
    (applyLine apiExec "FILE=n" st).write_file = false ∧
    (applyLine apiExec "JSON=y" st).json_dump = true ∧
    (applyLine apiExec "JSON=n" st).json_dump = false ∧
    (applyLine apiExec "FILE=n" (applyLine apiExec "FILE=y" st)).write_file
      = false ∧
    (∀ d, d ∈ ["FILE=y", "FILE=n", "JSON=y", "JSON=n"] →
      applyLine apiExec d (applyLine apiExec d st) =
        applyLine apiExec d st) := by
  have hfy : dispatchLine "FILE=y" = Effect.setWriteFile true := by decide
  have hfn : dispatchLine "FILE=n" = Effect.setWriteFile false := by decide
  have hjy : dispatchLine "JSON=y" = Effect.setJsonDump true := by decide
  have hjn : dispatchLine "JSON=n" = Effect.setJsonDump false := by decide
  refine ⟨⟨by decide, by decide, by decide, by decide⟩, ?_, ?_, ?_, ?_, ?_, ?_⟩
  · simp [applyLine, loopIter, hfy, runEffect]
  · simp [applyLine, loopIter, hfn, runEffect]
  · simp [applyLine, loopIter, hjy, runEffect]
  · simp [applyLine, loopIter, hjn, runEffect]
  · simp [applyLine, loopIter, hfy, hfn, runEffect]
  · intro d hdmem
    fin_cases hdmem
    · simp [applyLine, loopIter, hfy, runEffect]
    · simp [applyLine, loopIter, hfn, runEffect]
    · simp [applyLine, loopIter, hjy, runEffect]
    · simp [applyLine, loopIter, hjn, runEffect]

/-- C4 witness: with both flags initially false, FILE=y twice equals FILE=y
once, and FILE=y followed by FILE=n leaves the write-to-file flag false. -/
theorem c4_witness :
    applyLine (fun _ => none) "FILE=y"
        (applyLine (fun _ => none) "FILE=y" ⟨false, false⟩) =
      applyLine (fun _ => none) "FILE=y" ⟨false, false⟩ ∧
    (applyLine (fun _ => none) "FILE=n"
        (applyLine (fun _ => none) "FILE=y" ⟨false, false⟩)).write_file
      = false := by
  refine ⟨?_, ?_⟩
  · exact (c4_toggle_directives (fun _ => none) ⟨false, false⟩).2.2.2.2.2.2
      "FILE=y" (by decide)
  · exact (c4_toggle_directives (fun _ => none) ⟨false, false⟩).2.2.2.2.2.1

/-- C5: an identifier that is not alphanumeric makes main print the error
message and exit with status 1 before the collaborator is constructed, hence
before any command can run; an alphanumeric identifier passes validation and
the run constructs the collaborator and proceeds. -/
theorem c5_startup_validation (id : String) (command : Option String)
    (apiExec : ApiOracle) :
    (pyIsAlnum id = false →
      mainFlow id command apiExec = MainResult.invalidId invalidIdMessage 1 ∧
      apiConstructed (mainFlow id command apiExec) = false) ∧
    (pyIsAlnum id = true →
      apiConstructed (mainFlow id command apiExec) = true ∧
      ∀ out c, mainFlow id command apiExec ≠ MainResult.invalidId out c) := by
  constructor
  · intro h
    have hm : mainFlow id command apiExec =
        MainResult.invalidId invalidIdMessage 1 := by
      unfold mainFlow
      simp [h]
    exact ⟨hm, by rw [hm]; rfl⟩
  · intro h
    constructor
    · unfold mainFlow
      simp only [h]
      cases command with
      | none => rfl
      | some c =>
        by_cases hc : c = "" <;> simp [hc, apiConstructed]
    · intro out c
      unfold mainFlow
      simp only [h]
      cases command with
      | none => simp
      | some c2 =>
        by_cases hc : c2 = "" <;> simp [hc]

/-- C5 witness: the identifiers with a hyphen and with a blank are rejected
with exit status 1 before the collaborator exists, and the plain
alphanumeric identifier passes validation. -/
theorem c5_witness :
    mainFlow "abc-123" none (fun _ => none) =
      MainResult.invalidId invalidIdMessage 1 ∧
    mainFlow "abc 123" none (fun _ => none) =
      MainResult.invalidId invalidIdMessage 1 ∧
    apiConstructed (mainFlow "abc123" none (fun _ => none)) = true :=
  ⟨((c5_startup_validation "abc-123" none (fun _ => none)).1 (by decide)).1,
   ((c5_startup_validation "abc 123" none (fun _ => none)).1 (by decide)).1,
   ((c5_startup_validation "abc123" none (fun _ => none)).2 (by decide)).1⟩

/-- C6: print_full_data always emits the titled header as its first line;
on an empty sequence the output is exactly the header followed by the
no-data notice, with no bullet lines; on a nonempty sequence of N items the
lines after the header are exactly the N bullet lines, one per element, in
input order. -/
theorem c6_print_full_data (data : List String) (title : String) :
    (print_full_data data title).head? = some ("\n[+] " ++ title ++ ":\n") ∧
    (data = [] →
      print_full_data data title =
        ["\n[+] " ++ title ++ ":\n", "[-] No data found.\n"]) ∧
    (data ≠ [] →
      (print_full_data data title).tail =
          data.map (fun item => "  - " ++ item ++ "\n") ∧
        ((print_full_data data title).tail).length = data.length) := by
  refine ⟨rfl, ?_, ?_⟩
  · intro h
    subst h
    rfl
  · intro h
    have he : data.isEmpty = false := by
      cases data with
      | nil => simp at h
      | cons x xs => rfl
    constructor
    · simp [print_full_data, he]
    · simp [print_full_data, he]

/-- C6 witness: the empty sequence gives the header and the no-data notice
only, and a two-element sequence gives two bullet lines in order after the
header. -/
theorem c6_witness :
    print_full_data [] "Follower Emails" =
      ["\n[+] " ++ "Follower Emails" ++ ":\n", "[-] No data found.\n"] ∧
    (print_full_data ["a@b", "c@d"] "Follower Emails").tail =
      ["  - " ++ "a@b" ++ "\n", "  - " ++ "c@d" ++ "\n"] := by
  constructor
  · exact (c6_print_full_data [] "Follower Emails").2.1 rfl
  · have h := ((c6_print_full_data ["a@b", "c@d"] "Follower Emails").2.2
      (by decide)).1
    simpa using h

/-- C7: with a valid identifier and a nonempty command option, main runs in
single-command mode and never enters the interactive loop; a registered name
is resolved and executed exactly once, an unregistered name prints the
unknown-command message, and in both the successful and the unknown case
main returns normally so the process exit status is 0 either way. -/
theorem c7_single_command_mode (id name : String) (apiExec : ApiOracle)
    (hid : pyIsAlnum id = true) (hname : name ≠ "") :
    mainFlow id (some name) apiExec =
      MainResult.singleMode name (runSingle name apiExec) ∧
    (∀ a, commandsLookup name = some a →
      singleInvoked name = [a] ∧
      (execAction apiExec a = none →
        runSingle name apiExec = SingleResult.done ∧
          singleExitCode name apiExec = some 0)) ∧
    (commandsLookup name = none →
      runSingle name apiExec = SingleResult.unknownCmd ∧
        singleInvoked name = [] ∧ singleExitCode name apiExec = some 0) := by
  refine ⟨?_, ?_, ?_⟩
  · unfold mainFlow
    simp [hid, hname]
  · intro a ha
    constructor
    · simp [singleInvoked, ha]
    · intro hex
      have hr : runSingle name apiExec = SingleResult.done := by
        simp [runSingle, ha, hex]
      exact ⟨hr, by simp [singleExitCode, hr]⟩
  · intro ha
    have hr : runSingle name apiExec = SingleResult.unknownCmd := by
      simp [runSingle, ha]
    exact ⟨hr, by simp [singleInvoked, ha], by simp [singleExitCode, hr]⟩

/-- C7 witness: with a valid identifier, the registered name list runs once
and main reports status 0, and the unregistered name nosuch gives the
unknown-command outcome with the same status 0. -/
theorem c7_witness :
    mainFlow "abc123" (some "list") (fun _ => none) =
      MainResult.singleMode "list" (runSingle "list" (fun _ => none)) ∧
    singleInvoked "list" = [Action.print_commands] ∧
    runSingle "list" (fun _ => none) = SingleResult.done ∧
    singleExitCode "list" (fun _ => none) = some 0 ∧
    runSingle "nosuch" (fun _ => none) = SingleResult.unknownCmd ∧
    singleInvoked "nosuch" = [] ∧
    singleExitCode "nosuch" (fun _ => none) = some 0 := by
  have h1 := c7_single_command_mode "abc123" "list" (fun _ => none)
    (by decide) (by decide)
  have h2 := c7_single_command_mode "abc123" "nosuch" (fun _ => none)
    (by decide) (by decide)
  have hk := h1.2.1 Action.print_commands (by decide)
  have hu := h2.2.2 (by decide)
  exact ⟨h1.1, hk.1, (hk.2 rfl).1, (hk.2 rfl).2, hu.1, hu.2.1, hu.2.2⟩

/-- C8: the interrupt event makes the installed handler print the farewell
message and end the process with exit status 0, so the loop over any later
input exits with status 0 and no unhandled error; and the only loop passes
that terminate the process are the interrupt itself and lines whose stripped
text is the quit or the exit command. -/
theorem c8_interrupt_exit (apiExec : ApiOracle) (st : ApiState) :
    loopIter apiExec InputEvent.interrupt st =
      (LoopOutcome.terminate 0 [signal_handler_message], st) ∧
    (∀ rest, runLoop apiExec (InputEvent.interrupt :: rest) st =
      LoopResult.exited 0) ∧
    (∀ ev c out st2,
      loopIter apiExec ev st = (LoopOutcome.terminate c out, st2) →
        ev = InputEvent.interrupt ∨
        ∃ raw, ev = InputEvent.line raw ∧
          (pyStrip raw = "quit" ∨ pyStrip raw = "exit")) := by
  refine ⟨rfl, fun rest => rfl, ?_⟩
  intro ev c out st2 h
  cases ev with
  | interrupt => exact Or.inl rfl
  | line raw =>
    refine Or.inr ⟨raw, rfl, ?_⟩
    have h2 : runEffect apiExec (dispatchLine raw) st =
        (LoopOutcome.terminate c out, st2) := h
    cases hd : dispatchLine raw with
    | nothing => rw [hd] at h2; simp [runEffect] at h2
    | setWriteFile b => rw [hd] at h2; simp [runEffect] at h2
    | setJsonDump b => rw [hd] at h2; simp [runEffect] at h2
    | printUnknown => rw [hd] at h2; simp [runEffect] at h2
    | invoke name a =>
      rw [hd] at h2
      cases a with
      | print_commands => simp [runEffect, execAction] at h2
      | sys_exit => exact sys_exit_keys (dispatch_invoke hd).1
      | api_method m =>
        cases hm : apiExec m with
        | none => simp [runEffect, execAction, hm] at h2
        | some msg => simp [runEffect, execAction, hm, catchesAtLoop] at h2
      | full_data m t =>
        cases hm : apiExec m with
        | none => simp [runEffect, execAction, hm] at h2
        | some msg => simp [runEffect, execAction, hm, catchesAtLoop] at h2

/-- C8 witness: the interrupt at the prompt prints the farewell and exits
with status 0, and the terminating line quit is one of the two permitted
terminating lines. -/
theorem c8_witness :
    loopIter (fun _ => none) InputEvent.interrupt ⟨false, false⟩ =
      (LoopOutcome.terminate 0 [signal_handler_message],
        (⟨false, false⟩ : ApiState)) ∧
    runLoop (fun _ => none) [InputEvent.interrupt] ⟨false, false⟩ =
      LoopResult.exited 0 ∧
    (InputEvent.line " quit " = InputEvent.interrupt ∨
      ∃ raw, InputEvent.line " quit " = InputEvent.line raw ∧
        (pyStrip raw = "quit" ∨ pyStrip raw = "exit")) := by
  refine ⟨(c8_interrupt_exit (fun _ => none) ⟨false, false⟩).1, ?_, ?_⟩
  · exact (c8_interrupt_exit (fun _ => none) ⟨false, false⟩).2.1 []
  · exact (c8_interrupt_exit (fun _ => none) ⟨false, false⟩).2.2
      (InputEvent.line " quit ") 0 [] ⟨false, false⟩ (by decide)

/-- C9: the catch-all of the loop catches Exception instances only:
SystemExit is not caught, so the quit and exit commands, whose sys.exit call
raises SystemExit inside the try block, terminate the process without any
printed error line, and so does the interrupt handler. -/
theorem c9_systemexit_not_caught (apiExec : ApiOracle) (st : ApiState) :
    (∀ m, catchesAtLoop (PyExc.exception m) = true) ∧
    (∀ c, catchesAtLoop (PyExc.systemExit c) = false) ∧
    loopIter apiExec (InputEvent.line "quit") st =
      (LoopOutcome.terminate 0 [], st) ∧
    loopIter apiExec (InputEvent.line "exit") st =
      (LoopOutcome.terminate 0 [], st) ∧
    loopIter apiExec InputEvent.interrupt st =
      (LoopOutcome.terminate 0 [signal_handler_message], st) := by
  refine ⟨fun m => rfl, fun c => rfl, ?_, ?_, rfl⟩
  · have hd : dispatchLine "quit" = Effect.invoke "quit" Action.sys_exit := by
      decide
    simp [loopIter, hd, runEffect, execAction, catchesAtLoop, exitCodeOf]
  · have hd : dispatchLine "exit" = Effect.invoke "exit" Action.sys_exit := by
      decide
    simp [loopIter, hd, runEffect, execAction, catchesAtLoop, exitCodeOf]

/-- C10: in single-command mode no try/except wraps the call, so an
exception raised by the resolved command propagates out of main uncaught;
and the four toggle directives are not registry keys, so supplying one as
the startup command yields the unknown-command outcome instead of toggling
anything. -/
theorem c10_single_mode_no_catch (apiExec : ApiOracle) :
    (∀ name a e, commandsLookup name = some a →
      execAction apiExec a = some e →
      runSingle name apiExec = SingleResult.uncaught e) ∧
    commandsLookup "FILE=y" = none ∧
    commandsLookup "FILE=n" = none ∧
    commandsLookup "JSON=y" = none ∧
    commandsLookup "JSON=n" = none ∧
    runSingle "FILE=y" apiExec = SingleResult.unknownCmd ∧
    runSingle "FILE=n" apiExec = SingleResult.unknownCmd ∧
    runSingle "JSON=y" apiExec = SingleResult.unknownCmd ∧
    runSingle "JSON=n" apiExec = SingleResult.unknownCmd := by
  have hfy : commandsLookup "FILE=y" = none := by decide
  have hfn : commandsLookup "FILE=n" = none := by decide
  have hjy : commandsLookup "JSON=y" = none := by decide
  have hjn : commandsLookup "JSON=n" = none := by decide
  refine ⟨?_, hfy, hfn, hjy, hjn, ?_, ?_, ?_, ?_⟩
  · intro name a e ha he
    simp [runSingle, ha, he]
  · simp [runSingle, hfy]
  · simp [runSingle, hfn]
  · simp [runSingle, hjy]
  · simp [runSingle, hjn]

/-- C10 witness: the addrs command under a raising collaborator escapes
single-command mode uncaught, and the FILE=y directive given as the startup
command is reported unknown. -/
theorem c10_witness :
    runSingle "addrs" (fun _ => some "boom") =
      SingleResult.uncaught (PyExc.exception "boom") ∧
    runSingle "FILE=y" (fun _ => some "boom") = SingleResult.unknownCmd := by
  constructor
  · exact (c10_single_mode_no_catch (fun _ => some "boom")).1 "addrs"
      (Action.api_method "get_addrs") (PyExc.exception "boom") (by decide) rfl
  · exact (c10_single_mode_no_catch (fun _ => some "boom")).2.2.2.2.2.1

end Osintmy
